import Mathlib

/-!
Verification of the Terminal Session Gateway of CoreSecFrame
(src/static/js/app.js), shallowly embedded in Lean 4.

The embedding models:
- the outbound socket events the client emits;
- `TerminalManager` (the Session Registry): an association list from
  session ids to the pair of resource handles (terminal emulator,
  resize observer), together with the low-level resource/step traces of
  `createTerminal`, `closeTerminal` and `write`;
- the Vue application layer: the `terminal_closed` socket handler,
  `fetchData` polling, `executeTool` / `installTool` / `removeTool`
  flows (two-phase: the synchronous part inside the try/catch, then the
  `$nextTick` callback that runs after the try/catch has exited),
  `showNotification` with its 3-second removal timers, and
  `toggleExecutionMode`.

Machine effects (constructing a Terminal, disposing it, disconnecting an
observer, writing bytes, registry mutation, socket emission) are recorded
as an explicit `Step` trace so that ordering and resource-release claims
can be stated about the exact sequence the source executes.
-/

namespace CoreSec

/-- Outbound socket events the client emits (client to backend). -/
inductive OutEvent where
  | terminal_input (session_id : String) (inp : String)
  | terminal_resize (session_id : String) (rows cols : Nat)
  | terminal_create (session_id : String)
  | terminal_close (session_id : String)
  | execute_tool (tool : String) (mode : String)
deriving DecidableEq, Repr

/-- Low-level machine steps executed by the gateway, in source order.
`newTerminal t` is the construction of emulator instance `t`
(`new Terminal(...)`), `newObserver o` the construction of resize
observer `o` (`new ResizeObserver(...)` plus `observe`), `disposeTerminal`
and `disconnectObserver` the corresponding releases, `writeTerminal` a
byte write into an emulator, `registrySet` / `registryDelete` the
mutations of the `terminals` Map, and `emit` a socket emission. -/
inductive Step where
  | newTerminal (tid : Nat)
  | newObserver (oid : Nat)
  | disposeTerminal (tid : Nat)
  | disconnectObserver (oid : Nat)
  | writeTerminal (tid : Nat) (data : String)
  | registrySet (session_id : String)
  | registryDelete (session_id : String)
  | emit (e : OutEvent)
deriving DecidableEq, Repr

/-- The socket events contained in a step trace, in order. -/
def emitted (steps : List Step) : List OutEvent :=
  steps.filterMap fun s =>
    match s with
    | Step.emit e => some e
    | _ => none

/-- A registry entry: the emulator instance and the resize observer that
`TerminalManager.createTerminal` stores for one session
(`this.terminals.set(sessionId, ...)`, app.js line 57). The fit addon is
owned by the emulator and carries no separate teardown, so it is not
tracked. Handles are identified by numeric ids. -/
structure TerminalEntry where
  terminal : Nat
  resizeObserver : Nat
deriving DecidableEq, Repr

/-- The `terminals` Map of `TerminalManager`, as an association list with
pairwise-distinct keys (JavaScript `Map` semantics). -/
abbrev Registry := List (String × TerminalEntry)

/-- Map.set for the registry: replace the value under an existing key,
otherwise append the new binding. -/
def mapSet (m : Registry) (k : String) (v : TerminalEntry) : Registry :=
  if m.any (fun p => p.1 = k) then
    m.map (fun p => if p.1 = k then (k, v) else p)
  else
    m ++ [(k, v)]

/-- Map.delete for the registry. -/
def mapDelete (m : Registry) (k : String) : Registry :=
  m.filter (fun p => p.1 ≠ k)

/-- Shallow embedding of `TerminalManager.createTerminal` (app.js lines
10 to 67).  `containerResolves` models whether
`document.getElementById(containerId)` finds the rendering surface;
`freshT` and `freshO` are the identities of the newly constructed
Terminal and ResizeObserver.  The source constructs the Terminal and
loads its addons before the container check; on a missing container it
throws (returned as `Except.error`) without disposing the Terminal and
without touching the registry.  On success it opens the terminal,
installs the input and resize listeners, constructs and attaches the
observer, stores the entry, emits `terminal_create`, and returns the
updated registry. -/
def createTerminal (m : Registry) (sessionId containerId : String)
    (containerResolves : Bool) (freshT freshO : Nat) :
    Except String Registry × List Step :=
  if containerResolves then
    (Except.ok (mapSet m sessionId ⟨freshT, freshO⟩),
     [Step.newTerminal freshT,
      Step.newObserver freshO,
      Step.registrySet sessionId,
      Step.emit (OutEvent.terminal_create sessionId)])
  else
    (Except.error ("Container " ++ containerId ++ " not found"),
     [Step.newTerminal freshT])

/-- Shallow embedding of `TerminalManager.closeTerminal` (app.js lines
69 to 78), parameterised by whether `terminal.dispose()` throws.  The
source has no try/catch: the statements run in order
`terminal.dispose(); resizeObserver.disconnect();
this.terminals.delete(sessionId); this.socket.emit('terminal_close', ...)`,
so a throw in `dispose` aborts the remaining statements.  Returns the
resulting registry, the steps that actually executed, and whether an
exception escaped. -/
def closeTerminalT (m : Registry) (sessionId : String)
    (disposeThrows : Bool) : Registry × List Step × Bool :=
  match m.lookup sessionId with
  | some entry =>
      if disposeThrows then
        (m, [Step.disposeTerminal entry.terminal], true)
      else
        (mapDelete m sessionId,
         [Step.disposeTerminal entry.terminal,
          Step.disconnectObserver entry.resizeObserver,
          Step.registryDelete sessionId,
          Step.emit (OutEvent.terminal_close sessionId)],
         false)
  | none => (m, [], false)

/-- `TerminalManager.closeTerminal` under normal (non-throwing) emulator
disposal. -/
def closeTerminal (m : Registry) (sessionId : String) :
    Registry × List Step :=
  ((closeTerminalT m sessionId false).1, (closeTerminalT m sessionId false).2.1)

/-- Shallow embedding of `TerminalManager.write` (app.js lines 80 to 85):
look the session up; if present, forward the bytes to its emulator,
otherwise do nothing.  The registry itself is never mutated, so only the
step trace is returned. -/
def write (m : Registry) (sessionId data : String) : List Step :=
  match m.lookup sessionId with
  | some entry => [Step.writeTerminal entry.terminal data]
  | none => []

/-- One entry of the `activeTerminals` presentation list (pushed by
`executeTool` / `installTool` / `removeTool`, spliced by the Vue method
`closeTerminal`). -/
structure ActiveTerminal where
  sessionId : String
  title : String
  minimized : Bool
deriving DecidableEq, Repr

/-- A tool record from the `/api/tools` snapshot (only the fields that
the gateway logic reads). -/
structure Tool where
  name : String
  installed : Bool
deriving DecidableEq, Repr

/-- A session record from the `/api/sessions` snapshot (only the fields
that the gateway logic reads). -/
structure SessionRec where
  id : Nat
  active : Bool
deriving DecidableEq, Repr

/-- The reactive state of the Vue application that the modelled
operations touch (app.js lines 90 to 108).  The Notification Sink
(`notifications`, `notificationId` and the removal timers) is modelled
separately as `NotifState`; flows that would call `showNotification`
report those calls in their result instead. -/
structure AppState where
  terminals : Registry
  activeTerminals : List ActiveTerminal
  executionMode : String
  tools : List Tool
  categories : List String
  sessions : List SessionRec
  loading : Bool
  showToolModal : Bool
deriving DecidableEq, Repr

/-- Vue method `closeTerminal` (app.js lines 313 to 319): delegate to
`TerminalManager.closeTerminal`, then remove the first matching entry
from the `activeTerminals` presentation list (`findIndex` followed by
`splice`; no change when the id is absent from the list). -/
def appCloseTerminal (st : AppState) (sessionId : String) :
    AppState × List Step :=
  let r := closeTerminal st.terminals sessionId
  { st with
      terminals := r.1,
      activeTerminals :=
        st.activeTerminals.eraseP (fun t => t.sessionId == sessionId) }
    |> fun st' => (st', r.2)

/-- Socket handler for the inbound `terminal_closed` event (app.js lines
144 to 146): it simply invokes the Vue `closeTerminal` method for the
named session. -/
def onTerminalClosed (st : AppState) (session_id : String) :
    AppState × List Step :=
  appCloseTerminal st session_id

/-- Socket handler for the inbound `terminal_output` event (app.js lines
136 to 138): forward the payload bytes to the named session via
`TerminalManager.write`. -/
def onTerminalOutput (st : AppState) (session_id output : String) :
    List Step :=
  write st.terminals session_id output

/-- Outcome of one awaited `fetch` of a collection endpoint: a 2xx
response carrying the parsed list, a non-2xx response
(`response.ok` false), or a rejection of the fetch itself. -/
inductive FetchResult (α : Type) where
  | ok (value : α)
  | httpError (status : Nat)
  | reject
deriving DecidableEq, Repr

/-- Whether a fetch outcome is a failure (non-2xx or rejected). -/
def FetchResult.failed : FetchResult α → Bool
  | .ok _ => false
  | .httpError _ => true
  | .reject => true

/-- The collection value a fetch outcome yields under fetchData's
per-collection handler: the parsed list on success, the empty list on
failure. -/
def FetchResult.orEmpty : FetchResult (List α) → List α
  | .ok v => v
  | .httpError _ => []
  | .reject => []

/-- Shallow embedding of `fetchData` (app.js lines 153 to 201).  Each of
the three fetches is wrapped in its own try/catch: a non-ok response or
a rejection logs to the console and replaces that collection with the
empty list; nothing else happens on that path.  The outer catch — the
only place that raises the `warning` notification — guards only the
statements after the three inner handlers (`this.loading = false`),
which cannot throw, so no notification is ever raised by a fetch
failure.  Returns the new state together with the list of
(message, kind) notifications raised during the call. -/
def fetchData (st : AppState) (toolsR : FetchResult (List Tool))
    (categoriesR : FetchResult (List String))
    (sessionsR : FetchResult (List SessionRec)) :
    AppState × List (String × String) :=
  let st1 :=
    match toolsR with
    | FetchResult.ok v => { st with tools := v }
    | FetchResult.httpError _ => { st with tools := [] }
    | FetchResult.reject => { st with tools := [] }
  let st2 :=
    match categoriesR with
    | FetchResult.ok v => { st1 with categories := v }
    | FetchResult.httpError _ => { st1 with categories := [] }
    | FetchResult.reject => { st1 with categories := [] }
  let st3 :=
    match sessionsR with
    | FetchResult.ok v => { st2 with sessions := v }
    | FetchResult.httpError _ => { st2 with sessions := [] }
    | FetchResult.reject => { st2 with sessions := [] }
  ({ st3 with loading := false }, [])

/-- Outcome of the awaited `POST /api/tool/{name}` call in the install
and remove flows: a 2xx response, a non-2xx response (which makes the
callback `throw new Error(...)`), or a rejected fetch. -/
inductive PostResult where
  | ok
  | notOk (status : Nat)
  | reject
deriving DecidableEq, Repr

/-- Result of one of the asynchronous tool-action flows.  `raised` lists
the (message, kind) pairs passed to `showNotification` during the flow;
`unhandledRejection` holds the message of an exception that escaped the
`$nextTick` callback — such an exception is NOT caught by the flow's
try/catch, because the try block has already returned by the time the
callback runs, so it reaches the event loop as an unhandled promise
rejection. -/
structure ActionOutcome where
  state : AppState
  steps : List Step
  raised : List (String × String)
  unhandledRejection : Option String
deriving DecidableEq, Repr

/-- Shallow embedding of `executeTool` (app.js lines 211 to 241).
Phase 1 (inside the try/catch, which can catch nothing because pushing
to an array and scheduling a callback cannot throw): build
`sessionId = tool_<name>_<now>`, push the presentation entry titled
`<name> - <mode> mode`, close the tool modal, and schedule the callback.
Phase 2 (the `$nextTick` callback, outside the try/catch): await
`createTerminal(sessionId, terminal-<sessionId>)`, then emit
`execute_tool` with the tool name and the current execution mode.  If
`createTerminal` throws, the emission does not happen and the exception
escapes the callback unhandled. -/
def executeTool (st : AppState) (toolName : String) (now : Nat)
    (containerResolves : Bool) (freshT freshO : Nat) : ActionOutcome :=
  let sessionId := "tool_" ++ toolName ++ "_" ++ toString now
  let terminalId := "terminal-" ++ sessionId
  let st1 := { st with
      activeTerminals := st.activeTerminals ++
        [⟨sessionId, toolName ++ " - " ++ st.executionMode ++ " mode", false⟩],
      showToolModal := false }
  match createTerminal st1.terminals sessionId terminalId containerResolves
      freshT freshO with
  | (Except.ok m, steps) =>
      { state := { st1 with terminals := m },
        steps := steps ++
          [Step.emit (OutEvent.execute_tool toolName st1.executionMode)],
        raised := [],
        unhandledRejection := none }
  | (Except.error msg, steps) =>
      { state := st1, steps := steps, raised := [],
        unhandledRejection := some msg }

/-- Shared shape of the `installTool` / `removeTool` callbacks (app.js
lines 255 to 269 and 286 to 300): await `createTerminal`, await the
POST, throw on a non-ok response, otherwise await `fetchData`.  Takes
the failure message used for the non-ok throw and the three fetch
outcomes consumed by the final `fetchData`. -/
def toolActionCallback (st : AppState) (sessionId terminalId : String)
    (containerResolves : Bool) (freshT freshO : Nat) (post : PostResult)
    (failMsg : String) (toolsR : FetchResult (List Tool))
    (categoriesR : FetchResult (List String))
    (sessionsR : FetchResult (List SessionRec)) :
    AppState × List Step × List (String × String) × Option String :=
  match createTerminal st.terminals sessionId terminalId containerResolves
      freshT freshO with
  | (Except.error msg, steps) => (st, steps, [], some msg)
  | (Except.ok m, steps) =>
      let st1 := { st with terminals := m }
      match post with
      | PostResult.ok =>
          let r := fetchData st1 toolsR categoriesR sessionsR
          (r.1, steps, r.2, none)
      | PostResult.notOk _ => (st1, steps, [], some failMsg)
      | PostResult.reject => (st1, steps, [], some "Failed to fetch")

/-- Shallow embedding of `installTool` (app.js lines 243 to 273).
Phase 1 (inside the try/catch): build `sessionId = install_<name>_<now>`,
push the presentation entry titled `Installing <name>`, schedule the
callback.  Phase 2 (the `$nextTick` callback, after the try/catch has
exited): `toolActionCallback` with failure message `Installation failed`.
The catch block, which would raise an `error` notification, can only see
exceptions of phase 1 — and phase 1 cannot throw — so `raised` never
contains the catch's notification and a callback failure escapes as an
unhandled rejection. -/
def installTool (st : AppState) (toolName : String) (now : Nat)
    (containerResolves : Bool) (freshT freshO : Nat) (post : PostResult)
    (toolsR : FetchResult (List Tool))
    (categoriesR : FetchResult (List String))
    (sessionsR : FetchResult (List SessionRec)) : ActionOutcome :=
  let sessionId := "install_" ++ toolName ++ "_" ++ toString now
  let terminalId := "terminal-" ++ sessionId
  let st1 := { st with
      activeTerminals := st.activeTerminals ++
        [⟨sessionId, "Installing " ++ toolName, false⟩] }
  let r := toolActionCallback st1 sessionId terminalId containerResolves
      freshT freshO post "Installation failed" toolsR categoriesR sessionsR
  { state := r.1, steps := r.2.1, raised := r.2.2.1,
    unhandledRejection := r.2.2.2 }

/-- Shallow embedding of `removeTool` (app.js lines 275 to 304), the
mirror image of `installTool` with session prefix `remove_`, title
`Removing <name>` and failure message `Removal failed`. -/
def removeTool (st : AppState) (toolName : String) (now : Nat)
    (containerResolves : Bool) (freshT freshO : Nat) (post : PostResult)
    (toolsR : FetchResult (List Tool))
    (categoriesR : FetchResult (List String))
    (sessionsR : FetchResult (List SessionRec)) : ActionOutcome :=
  let sessionId := "remove_" ++ toolName ++ "_" ++ toString now
  let terminalId := "terminal-" ++ sessionId
  let st1 := { st with
      activeTerminals := st.activeTerminals ++
        [⟨sessionId, "Removing " ++ toolName, false⟩] }
  let r := toolActionCallback st1 sessionId terminalId containerResolves
      freshT freshO post "Removal failed" toolsR categoriesR sessionsR
  { state := r.1, steps := r.2.1, raised := r.2.2.1,
    unhandledRejection := r.2.2.2 }

/-- One entry of the `notifications` array. -/
structure Notification where
  id : Nat
  message : String
  kind : String
deriving DecidableEq, Repr

/-- The Notification Sink: the `notificationId` counter, the visible
`notifications` array, and the pending `setTimeout` removals as
(fireTime, id-to-remove) pairs. -/
structure NotifState where
  notificationId : Nat
  notifications : List Notification
  timers : List (Nat × Nat)
deriving DecidableEq, Repr

/-- Shallow embedding of `showNotification` (app.js lines 321 to 327),
called at absolute time `now` (milliseconds): take the current counter
as the id and post-increment it, push the entry, and schedule a removal
of that id 3000 ms later.  Returns the new state and the assigned id. -/
def showNotification (st : NotifState) (message kind : String)
    (now : Nat) : NotifState × Nat :=
  let id := st.notificationId
  ({ notificationId := id + 1,
     notifications := st.notifications ++ [⟨id, message, kind⟩],
     timers := st.timers ++ [(now + 3000, id)] },
   id)

/-- Advance the sink to absolute time `now`: every timer whose fire time
has been reached runs its callback
`this.notifications = this.notifications.filter(n => n.id !== id)`
and is spent. -/
def fireTimers (st : NotifState) (now : Nat) : NotifState :=
  { st with
      notifications := st.notifications.filter
        (fun n => ¬ st.timers.any (fun tr => tr.1 ≤ now ∧ tr.2 = n.id)),
      timers := st.timers.filter (fun tr => ¬ tr.1 ≤ now) }

/-- Whether a notification with the given id is visible in the sink. -/
def present (st : NotifState) (i : Nat) : Bool :=
  st.notifications.any (fun n => n.id == i)

/-- Run a sequence of `showNotification` calls (message, kind, time) and
collect the assigned ids in order. -/
def assignedIds (st : NotifState) :
    List (String × String × Nat) → List Nat
  | [] => []
  | c :: cs =>
      let r := showNotification st c.1 c.2.1 c.2.2
      r.2 :: assignedIds r.1 cs

/-- Shallow embedding of `toggleExecutionMode` (app.js lines 350 to
352): `this.executionMode = this.executionMode === 'direct' ? 'guided'
: 'direct'`. -/
def toggleExecutionMode (mode : String) : String :=
  if mode = "direct" then "guided" else "direct"

/-- The initial execution mode (app.js line 101). -/
def executionModeInit : String := "guided"

/-- Close a registered session `n` times in a row through the Vue-level
registry operation (normal, non-throwing disposal). -/
def closeNTimes (m : Registry) (sid : String) : Nat → Registry
  | 0 => m
  | n + 1 => closeNTimes (closeTerminal m sid).1 sid n

/-- Trace property: every emission of event `e` in `steps` is preceded
by a `registrySet sid` step (the session is registered before the event
goes out). -/
def emitAfterRegister (steps : List Step) (sid : String) (e : OutEvent) :
    Prop :=
  ∀ i : Fin steps.length, steps.get i = Step.emit e →
    ∃ j : Fin steps.length, (j : Nat) < (i : Nat) ∧
      steps.get j = Step.registrySet sid

/-! ### Registry lemmas -/

theorem lookup_mapDelete_self (m : Registry) (k : String) :
    (mapDelete m k).lookup k = none := by
  rw [List.lookup_eq_none_iff]
  intro p hp
  simp only [mapDelete] at hp
  have h := (List.mem_filter.mp hp).2
  simp only [decide_eq_true_eq] at h
  simpa [bne_iff_ne] using Ne.symm h

theorem closeTerminalT_absent (m : Registry) (sid : String) (dt : Bool)
    (h : m.lookup sid = none) : closeTerminalT m sid dt = (m, [], false) := by
  simp [closeTerminalT, h]

theorem closeTerminal_absent (m : Registry) (sid : String)
    (h : m.lookup sid = none) : closeTerminal m sid = (m, []) := by
  simp [closeTerminal, closeTerminalT_absent m sid false h]

theorem length_mapDelete (m : Registry) (k : String)
    (hnd : (m.map Prod.fst).Nodup) (h : (m.lookup k).isSome) :
    (mapDelete m k).length + 1 = m.length := by
  induction m with
  | nil => simp at h
  | cons p rest ih =>
    obtain ⟨pk, pv⟩ := p
    rw [List.map_cons, List.nodup_cons] at hnd
    by_cases hk : pk = k
    · have hrest : mapDelete rest k = rest := by
        unfold mapDelete
        rw [List.filter_eq_self]
        intro q hq
        simp only [decide_eq_true_eq]
        intro hqk
        apply hnd.1
        have hq1 : q.1 ∈ rest.map Prod.fst := List.mem_map_of_mem Prod.fst hq
        rwa [hqk, ← hk] at hq1
      have hstep : mapDelete ((pk, pv) :: rest) k = mapDelete rest k := by
        unfold mapDelete
        rw [List.filter_cons]
        simp [hk]
      rw [hstep, hrest]
      simp
    · have hbeq : (k == pk) = false := by
        simp [Ne.symm hk]
      have h' : (rest.lookup k).isSome := by
        rw [List.lookup_cons] at h
        simpa [hbeq] using h
      have hstep : mapDelete ((pk, pv) :: rest) k =
          (pk, pv) :: mapDelete rest k := by
        unfold mapDelete
        rw [List.filter_cons]
        simp [hk]
      rw [hstep]
      have hrec := ih hnd.2 h'
      simp only [List.length_cons]
      omega

theorem closeNTimes_absent (m : Registry) (sid : String) (n : Nat)
    (h : m.lookup sid = none) : closeNTimes m sid n = m := by
  induction n with
  | zero => rfl
  | succ k ih =>
      show closeNTimes (closeTerminal m sid).1 sid k = m
      rw [closeTerminal_absent m sid h]
      exact ih

/-! ### Claim C10 -/

/-- Claim C10: the execution mode is one of `guided` and `direct`
(initially `guided`); `toggleExecutionMode` maps `direct` to `guided`
and everything else to `direct`, and applying it twice from any
reachable state (any number of toggles from the initial mode) returns
the original mode. -/
theorem c10_toggleExecutionMode_involution :
    toggleExecutionMode "direct" = "guided" ∧
    toggleExecutionMode "guided" = "direct" ∧
    ∀ n : Nat,
      (toggleExecutionMode^[n] executionModeInit = "guided" ∨
        toggleExecutionMode^[n] executionModeInit = "direct") ∧
      toggleExecutionMode (toggleExecutionMode
          (toggleExecutionMode^[n] executionModeInit)) =
        toggleExecutionMode^[n] executionModeInit := by
  refine ⟨by decide, by decide, ?_⟩
  intro n
  induction n with
  | zero =>
      constructor
      · exact Or.inl rfl
      · decide
  | succ k ih =>
      rw [Function.iterate_succ_apply']
      rcases ih.1 with h | h <;> rw [h]
      · exact ⟨Or.inr (by decide), by decide⟩
      · exact ⟨Or.inl (by decide), by decide⟩

/-! ### Claim C7 -/

/-- Claim C7: within one poll cycle each of the three fetches is
independently attempted and independently failable — every collection
ends up as its own fetch outcome dictates (parsed list on success, empty
list on failure), no matter how the other two fetches fared, so one
failing endpoint never blocks the updates of the other two. -/
theorem c7_fetchData_collections_independent (st : AppState)
    (toolsR : FetchResult (List Tool))
    (categoriesR : FetchResult (List String))
    (sessionsR : FetchResult (List SessionRec)) :
    (fetchData st toolsR categoriesR sessionsR).1.tools = toolsR.orEmpty ∧
    (fetchData st toolsR categoriesR sessionsR).1.categories =
      categoriesR.orEmpty ∧
    (fetchData st toolsR categoriesR sessionsR).1.sessions =
      sessionsR.orEmpty := by
  cases toolsR <;> cases categoriesR <;> cases sessionsR <;>
    simp [fetchData, FetchResult.orEmpty]

/-! ### Claim C3 -/

/-- Concrete application state for exercising `fetchData`. -/
def c3State : AppState :=
  { terminals := [],
    activeTerminals := [],
    executionMode := "guided",
    tools := [⟨"nmap", true⟩],
    categories := ["scanners"],
    sessions := [],
    loading := false,
    showToolModal := false }

/-- Claim C3, counterexample: when the `/api/tools` fetch rejects while
the other two succeed, the tools collection does become empty, but the
cycle raises zero notifications — not exactly one `warning` — because
each fetch failure is swallowed by its own inner catch and the outer
catch that raises the warning is unreachable. -/
theorem c3_counterexample :
    ¬ ((fetchData c3State FetchResult.reject
          (FetchResult.ok ["scanners"]) (FetchResult.ok [])).1.tools = [] ∧
       ((fetchData c3State FetchResult.reject
          (FetchResult.ok ["scanners"]) (FetchResult.ok [])).2.filter
            (fun r => r.2 == "warning")).length = 1) := by
  decide

/-- Claim C3, amended: for every poll cycle in which a collection's
fetch fails (rejects or returns non-2xx), that collection is replaced
with an empty list and no notification of any kind is raised (the
failure is only logged to the console; the warning-raising outer catch
guards statements that cannot throw). -/
theorem c3_fetch_failure_empties_silently (st : AppState)
    (toolsR : FetchResult (List Tool))
    (categoriesR : FetchResult (List String))
    (sessionsR : FetchResult (List SessionRec)) :
    (toolsR.failed = true →
      (fetchData st toolsR categoriesR sessionsR).1.tools = []) ∧
    (categoriesR.failed = true →
      (fetchData st toolsR categoriesR sessionsR).1.categories = []) ∧
    (sessionsR.failed = true →
      (fetchData st toolsR categoriesR sessionsR).1.sessions = []) ∧
    (fetchData st toolsR categoriesR sessionsR).2 = [] := by
  cases toolsR <;> cases categoriesR <;> cases sessionsR <;>
    simp [fetchData, FetchResult.failed]

/-- Claim C3, witness: the amended statement evaluated at a concrete
cycle in which the tools fetch rejects and the other two succeed. -/
theorem c3_fetch_failure_empties_silently_witness :
    (fetchData c3State FetchResult.reject
        (FetchResult.ok ["scanners"]) (FetchResult.ok [])).1.tools = [] ∧
    (fetchData c3State FetchResult.reject
        (FetchResult.ok ["scanners"]) (FetchResult.ok [])).2 = [] := by
  have h := c3_fetch_failure_empties_silently c3State FetchResult.reject
    (FetchResult.ok ["scanners"]) (FetchResult.ok [])
  exact ⟨h.1 (by decide), h.2.2.2⟩

/-! ### Claim C1 -/

/-- Concrete application state with one registered session and its
presentation entry. -/
def c1State : AppState :=
  { terminals := [("tool_nmap_123", ⟨0, 1⟩)],
    activeTerminals := [⟨"tool_nmap_123", "nmap - guided mode", false⟩],
    executionMode := "guided",
    tools := [],
    categories := [],
    sessions := [],
    loading := false,
    showToolModal := false }

/-- Claim C1, counterexample: on a backend `terminal_closed` event for a
registered session, the Registry entry and the presentation entry are
indeed removed, but the handler is NOT silent: `closeTerminal` emits a
`terminal_close` event back to the backend, so the claimed absence of
outbound events is false. -/
theorem c1_counterexample :
    ¬ ((onTerminalClosed c1State "tool_nmap_123").1.terminals.lookup
          "tool_nmap_123" = none ∧
       (onTerminalClosed c1State "tool_nmap_123").1.activeTerminals = [] ∧
       emitted (onTerminalClosed c1State "tool_nmap_123").2 = []) := by
  decide

/-- Claim C1, amended: when the backend emits `terminal_closed` for a
session present in the Registry, the Registry entry is removed and the
first matching active-terminal presentation entry is removed, and
exactly one outbound event is emitted in response: a `terminal_close`
for that session is sent back to the backend. -/
theorem c1_terminal_closed_removes_and_reacks (st : AppState)
    (sid : String) (e : TerminalEntry) (t : ActiveTerminal)
    (hreg : st.terminals.lookup sid = some e)
    (ht : t ∈ st.activeTerminals) (hts : t.sessionId = sid) :
    (onTerminalClosed st sid).1.terminals.lookup sid = none ∧
    (onTerminalClosed st sid).1.activeTerminals.length + 1 =
      st.activeTerminals.length ∧
    emitted (onTerminalClosed st sid).2 =
      [OutEvent.terminal_close sid] := by
  have hclose : closeTerminal st.terminals sid =
      (mapDelete st.terminals sid,
       [Step.disposeTerminal e.terminal,
        Step.disconnectObserver e.resizeObserver,
        Step.registryDelete sid,
        Step.emit (OutEvent.terminal_close sid)]) := by
    simp [closeTerminal, closeTerminalT, hreg]
  refine ⟨?_, ?_, ?_⟩
  · simp only [onTerminalClosed, appCloseTerminal, hclose]
    exact lookup_mapDelete_self st.terminals sid
  · have hlen := List.length_eraseP_of_mem (p := fun a => a.sessionId == sid)
      ht (by simp [hts])
    have hpos : 0 < st.activeTerminals.length :=
      List.length_pos.mpr (List.ne_nil_of_mem ht)
    simp only [onTerminalClosed, appCloseTerminal]
    omega
  · simp [onTerminalClosed, appCloseTerminal, hclose, emitted]

/-- Claim C1, witness: the amended statement at the concrete state with
session `tool_nmap_123`. -/
theorem c1_terminal_closed_removes_and_reacks_witness :
    (onTerminalClosed c1State "tool_nmap_123").1.terminals.lookup
        "tool_nmap_123" = none ∧
    (onTerminalClosed c1State "tool_nmap_123").1.activeTerminals.length + 1 =
      c1State.activeTerminals.length ∧
    emitted (onTerminalClosed c1State "tool_nmap_123").2 =
      [OutEvent.terminal_close "tool_nmap_123"] :=
  c1_terminal_closed_removes_and_reacks c1State "tool_nmap_123" ⟨0, 1⟩
    ⟨"tool_nmap_123", "nmap - guided mode", false⟩
    (by decide) (by decide) (by decide)

/-! ### Claim C2 -/

/-- Concrete registry with one session whose emulator handle is 3 and
whose observer handle is 4. -/
def c2Registry : Registry := [("s1", ⟨3, 4⟩)]

/-- Claim C2, counterexample: the teardown of a registered session does
not begin with disconnecting the observer — the trace starts with the
emulator disposal — and when the emulator's disposal throws, neither the
observer disconnect nor the registry removal is executed, so the claimed
order and the claimed throw-resilience both fail. -/
theorem c2_counterexample :
    ¬ ((closeTerminalT c2Registry "s1" false).2.1.take 2 =
        [Step.disconnectObserver 4, Step.disposeTerminal 3] ∧
       Step.disconnectObserver 4 ∈ (closeTerminalT c2Registry "s1" true).2.1 ∧
       Step.registryDelete "s1" ∈ (closeTerminalT c2Registry "s1" true).2.1) := by
  decide

/-- Claim C2, amended: for every session present in the Registry,
destroy performs its teardown steps in the order: dispose the emulator,
then disconnect the dimension observer, then remove the entry (then emit
`terminal_close`); there is no exception handling, so if the emulator's
disposal throws, the remaining steps are not executed, the entry stays
in the Registry, and the exception escapes. -/
theorem c2_closeTerminal_dispose_first_throw_aborts (m : Registry)
    (sid : String) (e : TerminalEntry) (h : m.lookup sid = some e) :
    (closeTerminalT m sid false).2.1 =
      [Step.disposeTerminal e.terminal,
       Step.disconnectObserver e.resizeObserver,
       Step.registryDelete sid,
       Step.emit (OutEvent.terminal_close sid)] ∧
    closeTerminalT m sid true = (m, [Step.disposeTerminal e.terminal], true) := by
  simp [closeTerminalT, h]

/-- Claim C2, witness: the amended statement at the concrete one-session
registry. -/
theorem c2_closeTerminal_dispose_first_throw_aborts_witness :
    (closeTerminalT c2Registry "s1" false).2.1 =
      [Step.disposeTerminal 3, Step.disconnectObserver 4,
       Step.registryDelete "s1",
       Step.emit (OutEvent.terminal_close "s1")] ∧
    closeTerminalT c2Registry "s1" true =
      (c2Registry, [Step.disposeTerminal 3], true) :=
  c2_closeTerminal_dispose_first_throw_aborts c2Registry "s1" ⟨3, 4⟩ (by decide)

/-! ### Claim C5 -/

/-- Claim C5, counterexample: when `createTerminal` fails with a
missing container (ContainerNotFound), an emulator instance has already
been constructed — `new Terminal(...)` precedes the container check —
and no disposal of it ever appears on this exit path, so the claim that
no emulator instance remains allocated on the error path is false.  The
Registry is indeed untouched: the registration step never runs. -/
theorem c5_counterexample :
    Step.newTerminal 7 ∈
      (createTerminal [] "tool_nmap_1" "terminal-tool_nmap_1" false 7 8).2 ∧
    Step.disposeTerminal 7 ∉
      (createTerminal [] "tool_nmap_1" "terminal-tool_nmap_1" false 7 8).2 ∧
    (createTerminal [] "tool_nmap_1" "terminal-tool_nmap_1" false 7 8).1 =
      Except.error "Container terminal-tool_nmap_1 not found" :=
  ⟨by decide, by decide, rfl⟩

/-- Claim C5, amended: when create fails with ContainerNotFound, the
Registry is left unchanged (no registration step runs, and the action
flows keep their registry untouched), no dimension observer is
allocated, and no event is emitted — but the emulator instance
constructed before the container check is never disposed on this exit
path: its release is not guaranteed. -/
theorem c5_create_fail_registry_unchanged_terminal_leaked (m : Registry)
    (sid cid : String) (fT fO : Nat) (st : AppState) (toolName : String)
    (now : Nat) (post : PostResult) (toolsR : FetchResult (List Tool))
    (categoriesR : FetchResult (List String))
    (sessionsR : FetchResult (List SessionRec)) :
    createTerminal m sid cid false fT fO =
      (Except.error ("Container " ++ cid ++ " not found"),
       [Step.newTerminal fT]) ∧
    emitted (createTerminal m sid cid false fT fO).2 = [] ∧
    (installTool st toolName now false fT fO post toolsR categoriesR
        sessionsR).state.terminals = st.terminals ∧
    (executeTool st toolName now false fT fO).state.terminals =
      st.terminals := by
  refine ⟨rfl, rfl, ?_, ?_⟩
  · simp [installTool, toolActionCallback, createTerminal]
  · simp [executeTool, createTerminal]

/-! ### Claim C4 -/

/-- Concrete application state for exercising the install and remove
flows. -/
def c4State : AppState :=
  { terminals := [],
    activeTerminals := [],
    executionMode := "guided",
    tools := [],
    categories := [],
    sessions := [],
    loading := false,
    showToolModal := false }

/-- Claim C4: evaluation at the failing inputs.  An install whose
`POST /api/tool/nmap` returns 500 and a remove whose POST rejects both
end with NO notification raised and with the failure escaping the
`$nextTick` callback as an unhandled promise rejection — the try/catch
of the initiating call site has already returned when the callback runs,
so contrary to the claim the failure does reach the event loop
unconverted. -/
theorem c4_action_failure_escapes_unhandled :
    (installTool c4State "nmap" 123 true 0 1 (PostResult.notOk 500)
        (FetchResult.ok []) (FetchResult.ok [])
        (FetchResult.ok [])).raised = [] ∧
    (installTool c4State "nmap" 123 true 0 1 (PostResult.notOk 500)
        (FetchResult.ok []) (FetchResult.ok [])
        (FetchResult.ok [])).unhandledRejection = some "Installation failed" ∧
    (removeTool c4State "nmap" 124 true 0 1 PostResult.reject
        (FetchResult.ok []) (FetchResult.ok [])
        (FetchResult.ok [])).raised = [] ∧
    (removeTool c4State "nmap" 124 true 0 1 PostResult.reject
        (FetchResult.ok []) (FetchResult.ok [])
        (FetchResult.ok [])).unhandledRejection = some "Failed to fetch" := by
  decide

/-! ### Claim C6 -/

theorem emitAfterRegister_shape (a b : Step) (sid : String)
    (rest : List Step) (ha : ∀ e, a ≠ Step.emit e)
    (hb : ∀ e, b ≠ Step.emit e) (e : OutEvent) :
    emitAfterRegister (a :: b :: Step.registrySet sid :: rest) sid e := by
  intro i hi
  match i with
  | ⟨0, h0⟩ => exact absurd hi (ha e)
  | ⟨1, h1⟩ => exact absurd hi (hb e)
  | ⟨2, h2⟩ => exact Step.noConfusion hi
  | ⟨n + 3, h3⟩ =>
      refine ⟨⟨2, by simp only [List.length_cons]; omega⟩, ?_, rfl⟩
      simp only [Fin.val_mk]
      omega

/-- Claim C6: on the successful creation path the step trace registers
the session strictly before any event goes out on the channel; in
particular `terminal_create` is emitted only after the registry write,
and for `executeTool` the `execute_tool` event is emitted only after the
session is registered (the trace is: construct emulator, construct
observer, registry write, `terminal_create`, `execute_tool`). -/
theorem c6_register_before_announce (st : AppState) (toolName : String)
    (now fT fO : Nat) :
    ((executeTool st toolName now true fT fO).steps =
      [Step.newTerminal fT, Step.newObserver fO,
       Step.registrySet ("tool_" ++ toolName ++ "_" ++ toString now),
       Step.emit (OutEvent.terminal_create
         ("tool_" ++ toolName ++ "_" ++ toString now)),
       Step.emit (OutEvent.execute_tool toolName st.executionMode)]) ∧
    (∀ e : OutEvent,
      emitAfterRegister (executeTool st toolName now true fT fO).steps
        ("tool_" ++ toolName ++ "_" ++ toString now) e) ∧
    ∀ (m : Registry) (sid cid : String) (fT2 fO2 : Nat) (e : OutEvent),
      emitAfterRegister (createTerminal m sid cid true fT2 fO2).2 sid e := by
  have hsteps : (executeTool st toolName now true fT fO).steps =
      Step.newTerminal fT :: Step.newObserver fO ::
      Step.registrySet ("tool_" ++ toolName ++ "_" ++ toString now) ::
      [Step.emit (OutEvent.terminal_create
         ("tool_" ++ toolName ++ "_" ++ toString now)),
       Step.emit (OutEvent.execute_tool toolName st.executionMode)] := rfl
  refine ⟨hsteps, ?_, ?_⟩
  · intro e
    rw [hsteps]
    exact emitAfterRegister_shape _ _ _ _
      (fun e2 h => Step.noConfusion h) (fun e2 h => Step.noConfusion h) e
  · intro m sid cid fT2 fO2 e
    show emitAfterRegister
      (Step.newTerminal fT2 :: Step.newObserver fO2 ::
        Step.registrySet sid :: [Step.emit (OutEvent.terminal_create sid)])
      sid e
    exact emitAfterRegister_shape _ _ _ _
      (fun e2 h => Step.noConfusion h) (fun e2 h => Step.noConfusion h) e

/-! ### Claim C8 -/

/-- Claim C8: for a session id absent from the Registry, `write` and
destroy are complete no-ops — no step is executed, nothing is emitted,
the registry is unchanged and no exception escapes (even if disposal
would throw); and for a registered session, `n + 1` successive close
calls shrink the Registry by exactly one entry. -/
theorem c8_absent_noop_and_close_idempotent :
    (∀ (m : Registry) (sid data : String), m.lookup sid = none →
      write m sid data = []) ∧
    (∀ (m : Registry) (sid : String) (dt : Bool), m.lookup sid = none →
      closeTerminalT m sid dt = (m, [], false)) ∧
    ∀ (m : Registry) (sid : String), (m.map Prod.fst).Nodup →
      (m.lookup sid).isSome →
      ∀ n : Nat, (closeNTimes m sid (n + 1)).length + 1 = m.length := by
  refine ⟨?_, ?_, ?_⟩
  · intro m sid data h
    simp [write, h]
  · exact closeTerminalT_absent
  · intro m sid hnd h n
    have hdel : (closeTerminal m sid).1 = mapDelete m sid := by
      obtain ⟨e, he⟩ := Option.isSome_iff_exists.mp h
      simp [closeTerminal, closeTerminalT, he]
    show (closeNTimes (closeTerminal m sid).1 sid n).length + 1 = m.length
    rw [hdel, closeNTimes_absent _ _ _ (lookup_mapDelete_self m sid)]
    exact length_mapDelete m sid hnd h

/-- Claim C8, witness: `write` and destroy on the unknown id `b` do
nothing, and three successive closes of the registered session `a`
shrink the one-entry registry to zero entries. -/
theorem c8_absent_noop_and_close_idempotent_witness :
    write [("a", (⟨0, 1⟩ : TerminalEntry))] "b" "x" = [] ∧
    closeTerminalT [("a", (⟨0, 1⟩ : TerminalEntry))] "b" true =
      ([("a", ⟨0, 1⟩)], [], false) ∧
    (closeNTimes [("a", (⟨0, 1⟩ : TerminalEntry))] "a" 3).length + 1 =
      [("a", (⟨0, 1⟩ : TerminalEntry))].length := by
  have h := c8_absent_noop_and_close_idempotent
  exact ⟨h.1 _ "b" "x" (by decide), h.2.1 _ "b" true (by decide),
    h.2.2 [("a", ⟨0, 1⟩)] "a" (by simp) (by decide) 2⟩

/-! ### Claim C9 -/

theorem assignedIds_eq_range' (st : NotifState)
    (msgs : List (String × String × Nat)) :
    assignedIds st msgs = List.range' st.notificationId msgs.length := by
  induction msgs generalizing st with
  | nil => rfl
  | cons c cs ih =>
      show st.notificationId :: assignedIds _ cs = _
      rw [List.length_cons, List.range'_succ, ih]
      rfl

/-- Claim C9: notification ids are assigned from a counter that never
repeats — over any run of raises the assigned ids are strictly
increasing, each strictly greater than every earlier one — and the
3-second TTL removes exactly the raised entry by id match: a
notification raised at time t is still present at t + 2999 ms and is
absent at t + 3001 ms (its removal timer fires at t + 3000 ms).  The
presence hypothesis is the sink invariant that every pending timer
targets an already-assigned id; the absence hypothesis is that visible
entries carry already-assigned ids. -/
theorem c9_notification_ids_monotone_and_ttl :
    (∀ (st : NotifState) (msgs : List (String × String × Nat)),
      assignedIds st msgs = List.range' st.notificationId msgs.length ∧
      (assignedIds st msgs).Pairwise (· < ·)) ∧
    (∀ (st : NotifState) (msg kind : String) (t : Nat),
      (∀ tr ∈ st.timers, tr.2 < st.notificationId) →
      present (fireTimers (showNotification st msg kind t).1 (t + 2999))
        (showNotification st msg kind t).2 = true) ∧
    ∀ (st : NotifState) (msg kind : String) (t : Nat),
      (∀ n ∈ st.notifications, n.id < st.notificationId) →
      present (fireTimers (showNotification st msg kind t).1 (t + 3001))
        (showNotification st msg kind t).2 = false := by
  refine ⟨?_, ?_, ?_⟩
  · intro st msgs
    refine ⟨assignedIds_eq_range' st msgs, ?_⟩
    rw [assignedIds_eq_range' st msgs]
    exact List.pairwise_lt_range' st.notificationId msgs.length
  · intro st msg kind t hT
    simp only [present, showNotification, fireTimers, List.any_eq_true]
    refine ⟨⟨st.notificationId, msg, kind⟩, ?_, by simp⟩
    rw [List.mem_filter]
    refine ⟨by simp, ?_⟩
    simp only [decide_eq_true_eq, List.any_eq_true, not_exists, not_and]
    rintro ⟨fire, target⟩ htr
    rcases List.mem_append.mp htr with hold | hnew
    · intro _ htarget
      exact absurd htarget (Nat.ne_of_lt (hT _ hold))
    · intro hfire _
      simp only [List.mem_singleton, Prod.mk.injEq] at hnew
      omega
  · intro st msg kind t hN
    simp only [present, showNotification, fireTimers, List.any_eq_false]
    intro n hn
    rw [List.mem_filter] at hn
    rcases List.mem_append.mp hn.1 with hold | hnew
    · have := hN n hold
      simp only [beq_iff_eq]
      omega
    · exfalso
      have hpred := hn.2
      simp only [List.mem_singleton] at hnew
      subst hnew
      simp only [decide_eq_true_eq, List.any_eq_true, not_exists, not_and] at hpred
      exact hpred (t + 3000, st.notificationId)
        (List.mem_append.mpr (Or.inr (List.mem_singleton.mpr rfl)))
        (by omega) rfl

/-- Claim C9, witness: from the empty sink, two raises are assigned the
strictly increasing ids 0 and 1; a notification raised at t = 100 is
present at 3099 ms and absent at 3101 ms. -/
theorem c9_notification_ids_monotone_and_ttl_witness :
    assignedIds ⟨0, [], []⟩ [("a", "success", 0), ("b", "error", 10)] =
      [0, 1] ∧
    present (fireTimers (showNotification ⟨0, [], []⟩ "hi" "warning" 100).1
      3099) (showNotification ⟨0, [], []⟩ "hi" "warning" 100).2 = true ∧
    present (fireTimers (showNotification ⟨0, [], []⟩ "hi" "warning" 100).1
      3101) (showNotification ⟨0, [], []⟩ "hi" "warning" 100).2 = false := by
  have h := c9_notification_ids_monotone_and_ttl
  refine ⟨?_, h.2.1 ⟨0, [], []⟩ "hi" "warning" 100 (by simp),
    h.2.2 ⟨0, [], []⟩ "hi" "warning" 100 (by simp)⟩
  have h1 := (h.1 ⟨0, [], []⟩ [("a", "success", 0), ("b", "error", 10)]).1
  simpa using h1

end CoreSec
